import Mathlib

/-!
Shallow embedding of the Feature Detection & Validation subsystem of
arm-trusted-firmware (file src/common/feat_detect.c), together with proofs
of the spec's claims about it.

Modelling conventions:
* The tri-state build flags FEAT_STATE_DISABLED / FEAT_STATE_ALWAYS /
  FEAT_STATE_CHECK take the values 0 / 1 / 2 (feat_detect.c lines 270-272).
* Hardware probe results are pure data: a `Hw` record holds, for each probe
  function of the source, the value that probe would return.
* A mid-pass `panic()` is modelled as `Except.error` carrying the
  `PassState` (diagnostics emitted so far, current tainted flag) at the
  moment of the panic; normal continuation is `Except.ok`.
* `detect_arch_features` (feat_detect.c lines 274-329) is the sequence of
  24 checks; it is rendered as a `registry` list whose entries are, in
  source order, exactly the calls made by the C function, run by a fold
  that stops at the first panic.
-/

/-- FEAT_STATE_DISABLED = 0 (feat_detect.c lines 270-272). -/
abbrev FEAT_STATE_DISABLED : Nat := 0

/-- FEAT_STATE_ALWAYS = 1 (feat_detect.c lines 270-272). -/
abbrev FEAT_STATE_ALWAYS : Nat := 1

/-- FEAT_STATE_CHECK = 2 (feat_detect.c lines 270-272). -/
abbrev FEAT_STATE_CHECK : Nat := 2

/-- Modelled from the spec: architectural constant from the arch header,
which is not under src/; only equality against it is ever tested. -/
abbrev ID_AA64MMFR2_EL1_NV2_SUPPORTED : Nat := 2

/-- Modelled from the spec: architectural constant from the arch header,
which is not under src/; only disequality against it is ever tested. -/
abbrev MTE_UNIMPLEMENTED : Nat := 0

/-- Modelled from the spec: architectural constant from the arch header,
which is not under src/; only equality against it is ever tested. -/
abbrev ID_AA64MMFR0_EL1_ECV_SUPPORTED : Nat := 1

/-- Modelled from the spec: architectural constant from the arch header,
which is not under src/; only equality against it is ever tested. -/
abbrev ID_AA64MMFR0_EL1_ECV_SELF_SYNCH : Nat := 2

/-- Modelled from the spec: architectural constant from the arch header,
which is not under src/; only disequality against it is ever tested. -/
abbrev ID_AA64PFR0_FEAT_RME_NOT_SUPPORTED : Nat := 0

/-- Build-time feature configuration: one tri-state flag per feature,
named exactly as the preprocessor macros consulted by feat_detect.c. -/
structure BuildCfg where
  ENABLE_FEAT_SB : Nat
  ENABLE_FEAT_CSV2_2 : Nat
  ENABLE_FEAT_PAN : Nat
  ENABLE_FEAT_VHE : Nat
  RAS_EXTENSION : Nat
  ENABLE_PAUTH : Nat
  CTX_INCLUDE_PAUTH_REGS : Nat
  ENABLE_FEAT_DIT : Nat
  ENABLE_FEAT_AMUv1 : Nat
  ENABLE_MPAM_FOR_LOWER_ELS : Nat
  CTX_INCLUDE_NEVE_REGS : Nat
  ENABLE_FEAT_SEL2 : Nat
  ENABLE_TRF_FOR_NS : Nat
  CTX_INCLUDE_MTE_REGS : Nat
  ENABLE_FEAT_RNG : Nat
  ENABLE_BTI : Nat
  ENABLE_FEAT_RNG_TRAP : Nat
  ENABLE_FEAT_AMUv1p1 : Nat
  ENABLE_FEAT_FGT : Nat
  ENABLE_FEAT_ECV : Nat
  ENABLE_FEAT_TWED : Nat
  ENABLE_FEAT_HCX : Nat
  ENABLE_BRBE_FOR_NS : Nat
  ENABLE_TRBE_FOR_NS : Nat
  ENABLE_RME : Nat
deriving DecidableEq, Repr

/-- Simulated hardware identification state: one field per probe function
of the source's probe layer, named after that probe, holding the value the
probe returns. Probes are pure reads of this record (spec section 4.1). -/
structure Hw where
  is_armv8_0_feat_sb_present : Bool
  is_armv8_0_feat_csv2_2_present : Bool
  is_armv8_1_pan_present : Bool
  is_armv8_1_vhe_present : Bool
  is_armv8_2_feat_ras_present : Bool
  is_armv8_3_pauth_present : Bool
  is_armv8_4_feat_dit_present : Bool
  read_feat_amu_id_field : Nat
  get_mpam_version : Nat
  get_armv8_4_feat_nv_support : Nat
  is_armv8_4_sel2_present : Bool
  read_feat_trf_id_field : Nat
  get_armv8_5_mte_support : Nat
  is_armv8_5_rng_present : Bool
  is_armv8_5_bti_present : Bool
  is_feat_rng_trap_present : Bool
  is_armv8_6_feat_amuv1p1_present : Bool
  read_feat_fgt_id_field : Nat
  get_armv8_6_ecv_support : Nat
  is_armv8_6_twed_present : Bool
  read_feat_hcx_id_field : Nat
  read_feat_brbe_id_field : Nat
  read_feat_trbe_id_field : Nat
  get_armv9_2_feat_rme_support : Nat
deriving DecidableEq, Repr

/-- Diagnostic lines the subsystem can emit: the error of feature_panic and
of check_feature's below-minimum branch (feat_detect.c lines 32 and 53), or
check_feature's above-maximum version error (lines 57-58). -/
inductive Diag where
  | notSupported (feat_name : String)
  | unknownVersion (feat_name : String) (field : Nat) (max : Nat)
deriving DecidableEq, Repr

/-- State of one detection pass: the static tainted flag (feat_detect.c
line 11) plus the list of diagnostics emitted so far. -/
structure PassState where
  tainted : Bool
  diags : List Diag
deriving DecidableEq, Repr

/-- Function feature_panic (feat_detect.c lines 30-34): log the error
naming the feature, then panic, modelled as Except.error carrying the
state at the moment of the panic. -/
def feature_panic (feat_name : String) (st : PassState) : Except PassState PassState :=
  Except.error { st with diags := st.diags ++ [Diag.notSupported feat_name] }

/-- Macro feat_detect_panic (feat_detect.c line 23): no-op when the probed
condition holds, feature_panic otherwise. -/
def feat_detect_panic (a : Bool) (b : String) (st : PassState) : Except PassState PassState :=
  if a then Except.ok st else feature_panic b st

/-- Function check_feature (feat_detect.c lines 48-61): the versioned range
check. Sets tainted (never panics) when state is ALWAYS and the field is
below min, or when state is at least ALWAYS and the field is above max. -/
def check_feature (state : Nat) (field : Nat) (feat_name : String)
    (min max : Nat) (st : PassState) : PassState :=
  let st1 :=
    if state = FEAT_STATE_ALWAYS ∧ field < min then
      { tainted := true, diags := st.diags ++ [Diag.notSupported feat_name] }
    else st
  if state ≥ FEAT_STATE_ALWAYS ∧ field > max then
    { tainted := true, diags := st1.diags ++ [Diag.unknownVersion feat_name field max] }
  else st1

/-- One registry entry: either a boolean presence check (the read_feat_xxx
wrappers built on feat_detect_panic, guarded by state = ALWAYS) or a
versioned range check (a call to check_feature). The probed value is
already resolved against a fixed Hw. -/
inductive Check where
  | presence (state : Nat) (present : Bool) (feat_name : String)
  | range (state : Nat) (field : Nat) (feat_name : String) (min max : Nat)
deriving DecidableEq, Repr

/-- Build-time state a registry entry is guarded by. -/
def stateOf : Check → Nat
  | Check.presence state _ _ => state
  | Check.range state _ _ _ _ => state

/-- Run a single registry entry. A presence check acts only when its state
is exactly FEAT_STATE_ALWAYS, mirroring the preprocessor guard of each
read_feat_xxx wrapper; a range check always returns normally with the
state produced by check_feature. -/
def runCheck : Check → PassState → Except PassState PassState
  | Check.presence state present feat_name, st =>
      if state = FEAT_STATE_ALWAYS then feat_detect_panic present feat_name st
      else Except.ok st
  | Check.range state field feat_name min max, st =>
      Except.ok (check_feature state field feat_name min max st)

/-- Run a list of registry entries in order, stopping at the first panic. -/
def runChecks : List Check → PassState → Except PassState PassState
  | [], st => Except.ok st
  | c :: cs, st => Except.bind (runCheck c st) (fun st1 => runChecks cs st1)

/-- Probe condition of read_feat_mpam (feat_detect.c line 139). -/
def mpam_present (hw : Hw) : Bool :=
  hw.get_mpam_version != 0

/-- Probe condition of read_feat_nv2 (feat_detect.c lines 149-151). -/
def nv2_present (hw : Hw) : Bool :=
  hw.get_armv8_4_feat_nv_support == ID_AA64MMFR2_EL1_NV2_SUPPORTED

/-- Probe condition of read_feat_mte (feat_detect.c lines 171-173). -/
def mte_present (hw : Hw) : Bool :=
  hw.get_armv8_5_mte_support != MTE_UNIMPLEMENTED

/-- Probe condition of read_feat_ecv (feat_detect.c lines 213-216). -/
def ecv_present (hw : Hw) : Bool :=
  hw.get_armv8_6_ecv_support == ID_AA64MMFR0_EL1_ECV_SUPPORTED ||
  hw.get_armv8_6_ecv_support == ID_AA64MMFR0_EL1_ECV_SELF_SYNCH

/-- Probe condition of read_feat_rme (feat_detect.c lines 236-237). -/
def rme_present (hw : Hw) : Bool :=
  hw.get_armv9_2_feat_rme_support != ID_AA64PFR0_FEAT_RME_NOT_SUPPORTED

/-- Effective guard state of read_feat_pauth (feat_detect.c line 118): the
check runs when ENABLE_PAUTH or CTX_INCLUDE_PAUTH_REGS equals ALWAYS. -/
def pauth_state (cfg : BuildCfg) : Nat :=
  if cfg.ENABLE_PAUTH = FEAT_STATE_ALWAYS ∨ cfg.CTX_INCLUDE_PAUTH_REGS = FEAT_STATE_ALWAYS
  then FEAT_STATE_ALWAYS else FEAT_STATE_DISABLED

/-- The ordered feature registry: exactly the sequence of checks performed
by detect_arch_features (feat_detect.c lines 279-324), in source order. -/
def registry (cfg : BuildCfg) (hw : Hw) : List Check :=
  [ Check.presence cfg.ENABLE_FEAT_SB hw.is_armv8_0_feat_sb_present "SB",
    Check.presence cfg.ENABLE_FEAT_CSV2_2 hw.is_armv8_0_feat_csv2_2_present "CSV2_2",
    Check.presence cfg.ENABLE_FEAT_PAN hw.is_armv8_1_pan_present "PAN",
    Check.presence cfg.ENABLE_FEAT_VHE hw.is_armv8_1_vhe_present "VHE",
    Check.presence cfg.RAS_EXTENSION hw.is_armv8_2_feat_ras_present "RAS",
    Check.presence (pauth_state cfg) hw.is_armv8_3_pauth_present "PAUTH",
    Check.presence cfg.ENABLE_FEAT_DIT hw.is_armv8_4_feat_dit_present "DIT",
    Check.range cfg.ENABLE_FEAT_AMUv1 hw.read_feat_amu_id_field "AMUv1" 1 2,
    Check.presence cfg.ENABLE_MPAM_FOR_LOWER_ELS (mpam_present hw) "MPAM",
    Check.presence cfg.CTX_INCLUDE_NEVE_REGS (nv2_present hw) "NV2",
    Check.presence cfg.ENABLE_FEAT_SEL2 hw.is_armv8_4_sel2_present "SEL2",
    Check.range cfg.ENABLE_TRF_FOR_NS hw.read_feat_trf_id_field "TRF" 1 1,
    Check.presence cfg.CTX_INCLUDE_MTE_REGS (mte_present hw) "MTE",
    Check.presence cfg.ENABLE_FEAT_RNG hw.is_armv8_5_rng_present "RNG",
    Check.presence cfg.ENABLE_BTI hw.is_armv8_5_bti_present "BTI",
    Check.presence cfg.ENABLE_FEAT_RNG_TRAP hw.is_feat_rng_trap_present "RNG_TRAP",
    Check.presence cfg.ENABLE_FEAT_AMUv1p1 hw.is_armv8_6_feat_amuv1p1_present "AMUv1p1",
    Check.range cfg.ENABLE_FEAT_FGT hw.read_feat_fgt_id_field "FGT" 1 1,
    Check.presence cfg.ENABLE_FEAT_ECV (ecv_present hw) "ECV",
    Check.presence cfg.ENABLE_FEAT_TWED hw.is_armv8_6_twed_present "TWED",
    Check.range cfg.ENABLE_FEAT_HCX hw.read_feat_hcx_id_field "HCX" 1 1,
    Check.range cfg.ENABLE_BRBE_FOR_NS hw.read_feat_brbe_id_field "BRBE" 1 2,
    Check.range cfg.ENABLE_TRBE_FOR_NS hw.read_feat_trbe_id_field "TRBE" 1 1,
    Check.presence cfg.ENABLE_RME (rme_present hw) "RME" ]

/-- Pass-start state: tainted = false (feat_detect.c line 276), no
diagnostics emitted yet. -/
def initState : PassState :=
  { tainted := false, diags := [] }

/-- Outcome of one detection pass: the process terminated (panic, either
mid-pass or at the end-of-pass tainted check), or the pass completed and
returned normally; each carries the diagnostics emitted. -/
inductive PassOutcome where
  | terminated (diags : List Diag)
  | completed (diags : List Diag)
deriving DecidableEq, Repr

/-- Final verdict of running a list of checks from the pass-start state:
a mid-pass panic terminates, and otherwise the end-of-pass inspection of
tainted (feat_detect.c lines 326-328) decides. -/
def passOutcome (cs : List Check) : PassOutcome :=
  match runChecks cs initState with
  | Except.error st => PassOutcome.terminated st.diags
  | Except.ok st =>
      if st.tainted then PassOutcome.terminated st.diags
      else PassOutcome.completed st.diags

/-- Value of the static tainted flag when the pass ends (by panic or by
normal return). -/
def passFinalTainted (cs : List Check) : Bool :=
  match runChecks cs initState with
  | Except.error st => st.tainted
  | Except.ok st => st.tainted

/-- Function detect_arch_features (feat_detect.c lines 274-329). The
incoming value of the static tainted flag is overwritten by the
initial assignment tainted = false (line 276), so the body ignores it;
the result pairs the pass outcome with the flag's final value. -/
def detect_arch_features (_tainted_in : Bool) (cfg : BuildCfg) (hw : Hw) :
    PassOutcome × Bool :=
  (passOutcome (registry cfg hw), passFinalTainted (registry cfg hw))

/-- Value of the tainted flag in the result of a run, whether the run
panicked or returned normally. -/
def taintedAfter : Except PassState PassState → Bool
  | Except.error st => st.tainted
  | Except.ok st => st.tainted

/-- All-disabled build configuration: every tri-state flag is
FEAT_STATE_DISABLED. -/
def cfg0 : BuildCfg :=
  ⟨0, 0, 0, 0, 0, 0, 0, 0, 0, 0, 0, 0, 0, 0, 0, 0, 0, 0, 0, 0, 0, 0, 0, 0, 0⟩

/-- Hardware on which every boolean probe reports absence and every
versioned probe reads field value 0. -/
def hw0 : Hw :=
  ⟨false, false, false, false, false, false, false, 0, 0, 0, false, 0, 0,
   false, false, false, false, 0, 0, false, 0, 0, 0, 0⟩

/-- Build configuration with ECV and TRBE set to Always and every other
feature Disabled. -/
def cfgC6 : BuildCfg :=
  { cfg0 with ENABLE_FEAT_ECV := FEAT_STATE_ALWAYS,
              ENABLE_TRBE_FOR_NS := FEAT_STATE_ALWAYS }

/-- Hardware on which the ECV probe reads 0 (ECV absent), the TRBE probe
reads field value 2 (above TRBE's max of 1), and everything else reports
absence or 0. -/
def hwC6 : Hw :=
  { hw0 with get_armv8_6_ecv_support := 0, read_feat_trbe_id_field := 2 }

/-! Generic lemmas about the runner, shared by the claim theorems. -/

lemma runChecks_append (xs ys : List Check) (st : PassState) :
    runChecks (xs ++ ys) st =
      Except.bind (runChecks xs st) (fun st1 => runChecks ys st1) := by
  induction xs generalizing st with
  | nil => rfl
  | cons c cs ih =>
      simp only [List.cons_append, runChecks]
      cases runCheck c st with
      | error e => rfl
      | ok st1 => exact ih st1

lemma runCheck_state_disabled (c : Check) (st : PassState)
    (h : stateOf c = FEAT_STATE_DISABLED) : runCheck c st = Except.ok st := by
  cases c with
  | presence s p n =>
      simp only [stateOf] at h
      subst h
      simp [runCheck]
  | range s f n mn mx =>
      simp only [stateOf] at h
      subst h
      simp [runCheck, check_feature]

lemma runChecks_all_disabled (cs : List Check)
    (h : ∀ c ∈ cs, stateOf c = FEAT_STATE_DISABLED) (st : PassState) :
    runChecks cs st = Except.ok st := by
  induction cs with
  | nil => rfl
  | cons c rest ih =>
      have hc : runCheck c st = Except.ok st :=
        runCheck_state_disabled c st (h c (List.mem_cons_self c rest))
      simp only [runChecks, hc]
      exact ih (fun x hx => h x (List.mem_cons_of_mem c hx)) 

lemma check_feature_in_range (s f : Nat) (n : String) (mn mx : Nat)
    (st : PassState) (h1 : mn ≤ f) (h2 : f ≤ mx) :
    check_feature s f n mn mx st = st := by
  unfold check_feature
  rw [if_neg, if_neg]
  · intro hc
    exact absurd hc.2 (Nat.not_lt.mpr h1)
  · intro hc
    exact absurd hc.2 (Nat.not_lt.mpr h2)
lemma check_feature_below_min (f : Nat) (n : String) (mn mx : Nat) (st : PassState)
    (hlt : f < mn) (hrange : mn ≤ mx) :
    check_feature FEAT_STATE_ALWAYS f n mn mx st =
      { tainted := true, diags := st.diags ++ [Diag.notSupported n] } := by
  have hne : ¬ f > mx := Nat.not_lt.mpr (Nat.le_trans (Nat.le_of_lt hlt) hrange)
  simp [check_feature, hlt, hne]

lemma check_feature_above_max (s f : Nat) (n : String) (mn mx : Nat) (st : PassState)
    (hge : FEAT_STATE_ALWAYS ≤ s) (hnotlow : ¬ (s = FEAT_STATE_ALWAYS ∧ f < mn))
    (hgt : mx < f) :
    check_feature s f n mn mx st =
      { tainted := true, diags := st.diags ++ [Diag.unknownVersion n f mx] } := by
  simp [check_feature, hnotlow, hgt, hge]

/-! Claim theorems. -/

/-- C3: for every versioned feature with build-time state Always and probed
field value strictly below the feature's min, the range check emits the
"not supported" diagnostic, sets tainted to true, and returns normally
(Except.ok: no panic at that point). -/
theorem spec_C3 (f : Nat) (n : String) (mn mx : Nat) (st : PassState)
    (hlt : f < mn) (hrange : mn ≤ mx) :
    runCheck (Check.range FEAT_STATE_ALWAYS f n mn mx) st =
      Except.ok { tainted := true, diags := st.diags ++ [Diag.notSupported n] } := by
  simp only [runCheck, check_feature_below_min f n mn mx st hlt hrange]

/-- Witness for C3 at a concrete input: AMUv1's range with field 0. -/
theorem spec_C3_witness :
    runCheck (Check.range FEAT_STATE_ALWAYS 0 "AMUv1" 1 2) initState =
      Except.ok { tainted := true, diags := initState.diags ++ [Diag.notSupported "AMUv1"] } :=
  spec_C3 0 "AMUv1" 1 2 initState (by decide) (by decide)

/-- C4: for every versioned feature with build-time state Always or Check
and probed field value strictly above the feature's max, the range check
emits the "unknown version" diagnostic, sets tainted to true, and returns
normally (Except.ok: no panic at that point). -/
theorem spec_C4 (s f : Nat) (n : String) (mn mx : Nat) (st : PassState)
    (hs : s = FEAT_STATE_ALWAYS ∨ s = FEAT_STATE_CHECK)
    (hrange : mn ≤ mx) (hgt : mx < f) :
    runCheck (Check.range s f n mn mx) st =
      Except.ok { tainted := true, diags := st.diags ++ [Diag.unknownVersion n f mx] } := by
  have hnotlow : ¬ (s = FEAT_STATE_ALWAYS ∧ f < mn) := by
    rintro ⟨-, hc⟩
    exact absurd hc (Nat.not_lt.mpr (Nat.le_trans hrange (Nat.le_of_lt hgt)))
  have hge : FEAT_STATE_ALWAYS ≤ s := by
    cases hs with
    | inl h => exact Nat.le_of_eq h.symm
    | inr h => rw [h]; decide
  simp only [runCheck, check_feature_above_max s f n mn mx st hge hnotlow hgt]

/-- Witness for C4 at a concrete input: TRBE's range with state Check and
field 5. -/
theorem spec_C4_witness :
    runCheck (Check.range FEAT_STATE_CHECK 5 "TRBE" 1 1) initState =
      Except.ok { tainted := true, diags := initState.diags ++ [Diag.unknownVersion "TRBE" 5 1] } :=
  spec_C4 FEAT_STATE_CHECK 5 "TRBE" 1 1 initState (Or.inr rfl) (by decide) (by decide)

/-- C5: a feature whose build-time state is Disabled is a complete no-op,
for every simulated hardware value: the check returns the state unchanged
(no diagnostic, no taint, no panic), and removing it from any position of
the registry does not change the run at all. -/
theorem spec_C5 (st st0 : PassState) (p : Bool) (f : Nat) (n : String)
    (mn mx : Nat) (pre post : List Check) :
    runCheck (Check.presence FEAT_STATE_DISABLED p n) st = Except.ok st ∧
    runCheck (Check.range FEAT_STATE_DISABLED f n mn mx) st = Except.ok st ∧
    runChecks (pre ++ Check.presence FEAT_STATE_DISABLED p n :: post) st0 =
      runChecks (pre ++ post) st0 ∧
    runChecks (pre ++ Check.range FEAT_STATE_DISABLED f n mn mx :: post) st0 =
      runChecks (pre ++ post) st0 := by
  have hp : ∀ st2, runCheck (Check.presence FEAT_STATE_DISABLED p n) st2 = Except.ok st2 :=
    fun st2 => runCheck_state_disabled _ st2 rfl
  have hr : ∀ st2, runCheck (Check.range FEAT_STATE_DISABLED f n mn mx) st2 = Except.ok st2 :=
    fun st2 => runCheck_state_disabled _ st2 rfl
  refine ⟨hp st, hr st, ?_, ?_⟩
  · rw [runChecks_append, runChecks_append]
    cases runChecks pre st0 with
    | error e => rfl
    | ok st1 =>
        show runChecks (Check.presence FEAT_STATE_DISABLED p n :: post) st1 = runChecks post st1
        simp only [runChecks, hp st1]
        rfl
  · rw [runChecks_append, runChecks_append]
    cases runChecks pre st0 with
    | error e => rfl
    | ok st1 =>
        show runChecks (Check.range FEAT_STATE_DISABLED f n mn mx :: post) st1 = runChecks post st1
        simp only [runChecks, hr st1]
        rfl

/-- C7: comparisons are unsigned with inclusive bounds: for every versioned
feature with state Always or Check and field value v with min ≤ v ≤ max
(both ends included), the range check changes nothing: no diagnostic, no
taint, normal continuation. -/
theorem spec_C7 (s f : Nat) (n : String) (mn mx : Nat) (st : PassState)
    (hs : s = FEAT_STATE_ALWAYS ∨ s = FEAT_STATE_CHECK)
    (hlo : mn ≤ f) (hhi : f ≤ mx) :
    runCheck (Check.range s f n mn mx) st = Except.ok st := by
  cases hs with
  | inl h =>
      simp only [runCheck]
      rw [check_feature_in_range s f n mn mx st hlo hhi]
  | inr h =>
      simp only [runCheck]
      rw [check_feature_in_range s f n mn mx st hlo hhi]

/-- Witness for C7 at a concrete input: FGT's range with v = min = max = 1,
state Always. -/
theorem spec_C7_witness :
    runCheck (Check.range FEAT_STATE_ALWAYS 1 "FGT" 1 1) initState = Except.ok initState :=
  spec_C7 FEAT_STATE_ALWAYS 1 "FGT" 1 1 initState (Or.inl rfl) (by decide) (by decide)

lemma check_feature_tainted_mono (s f : Nat) (n : String) (mn mx : Nat)
    (st : PassState) (h : st.tainted = true) :
    (check_feature s f n mn mx st).tainted = true := by
  simp only [check_feature]
  repeat' split
  all_goals first | rfl | exact h

lemma runCheck_tainted_mono (c : Check) (st : PassState) (h : st.tainted = true) :
    taintedAfter (runCheck c st) = true := by
  cases c with
  | presence s p n =>
      simp only [runCheck]
      by_cases hs : s = FEAT_STATE_ALWAYS
      · cases p with
        | false => simp [if_pos hs, feat_detect_panic, feature_panic, taintedAfter, h]
        | true => simp [if_pos hs, feat_detect_panic, taintedAfter, h]
      · simp [if_neg hs, taintedAfter, h]
  | range s f n mn mx =>
      simp only [runCheck, taintedAfter]
      exact check_feature_tainted_mono s f n mn mx st h

lemma runChecks_tainted_mono (cs : List Check) (st : PassState) (h : st.tainted = true) :
    taintedAfter (runChecks cs st) = true := by
  induction cs generalizing st with
  | nil => simpa [runChecks, taintedAfter] using h
  | cons c rest ih =>
      simp only [runChecks]
      cases hc : runCheck c st with
      | error e =>
          have hm := runCheck_tainted_mono c st h
          rw [hc] at hm
          simpa [Except.bind, taintedAfter] using hm
      | ok st1 =>
          have hm := runCheck_tainted_mono c st h
          rw [hc] at hm
          have h1 : st1.tainted = true := by simpa [taintedAfter] using hm
          simpa [Except.bind] using ih st1 h1

/-- C1: the tainted flag starts the pass as false, and when the sequence of
checks runs to completion (no mid-pass panic), the pass terminates the
process if and only if tainted ended up true; otherwise it returns
normally. -/
theorem spec_C1 (g : Bool) (cfg : BuildCfg) (hw : Hw) (st : PassState)
    (h : runChecks (registry cfg hw) initState = Except.ok st) :
    initState.tainted = false ∧
    ((detect_arch_features g cfg hw).fst = PassOutcome.terminated st.diags ↔
      st.tainted = true) ∧
    (st.tainted = false →
      (detect_arch_features g cfg hw).fst = PassOutcome.completed st.diags) := by
  refine ⟨rfl, ?_, ?_⟩
  · show passOutcome (registry cfg hw) = PassOutcome.terminated st.diags ↔ st.tainted = true
    simp only [passOutcome, h]
    cases htb : st.tainted with
    | false => simp
    | true => simp
  · intro hf
    show passOutcome (registry cfg hw) = PassOutcome.completed st.diags
    simp only [passOutcome, h, hf]
    simp

/-- Witness for C1: with every feature Disabled the checks complete with
the start state, the pass is not terminated and returns normally. -/
theorem spec_C1_witness :
    runChecks (registry cfg0 hw0) initState = Except.ok initState ∧
    (initState.tainted = false ∧
     ((detect_arch_features false cfg0 hw0).fst = PassOutcome.terminated initState.diags ↔
       initState.tainted = true) ∧
     (initState.tainted = false →
       (detect_arch_features false cfg0 hw0).fst = PassOutcome.completed initState.diags)) :=
  ⟨rfl, spec_C1 false cfg0 hw0 initState rfl⟩

/-- C2: a boolean feature with state Always whose probe reports absence
panics on the spot: the run stops with exactly the diagnostics emitted so
far plus the one naming this feature, whatever checks would have followed,
and the end-of-pass tainted inspection is never reached (the outcome is
the terminated one produced by the mid-pass error). -/
theorem spec_C2 (pre post : List Check) (n : String) (st : PassState)
    (h : runChecks pre initState = Except.ok st) :
    runChecks (pre ++ Check.presence FEAT_STATE_ALWAYS false n :: post) initState =
      Except.error { st with diags := st.diags ++ [Diag.notSupported n] } ∧
    passOutcome (pre ++ Check.presence FEAT_STATE_ALWAYS false n :: post) =
      PassOutcome.terminated (st.diags ++ [Diag.notSupported n]) := by
  have hrun : runChecks (pre ++ Check.presence FEAT_STATE_ALWAYS false n :: post) initState =
      Except.error { st with diags := st.diags ++ [Diag.notSupported n] } := by
    rw [runChecks_append, h]
    show runChecks (Check.presence FEAT_STATE_ALWAYS false n :: post) st = _
    simp [runChecks, runCheck, feat_detect_panic, feature_panic, Except.bind]
  refine ⟨hrun, ?_⟩
  simp only [passOutcome, hrun]

/-- Witness for C2: SB Always and absent, with a CSV2_2 check pending
after it: the run stops at SB with only SB's diagnostic. -/
theorem spec_C2_witness :
    runChecks ([] ++ Check.presence FEAT_STATE_ALWAYS false "SB" ::
        [Check.presence FEAT_STATE_ALWAYS false "CSV2_2"]) initState =
      Except.error { initState with diags := initState.diags ++ [Diag.notSupported "SB"] } ∧
    passOutcome ([] ++ Check.presence FEAT_STATE_ALWAYS false "SB" ::
        [Check.presence FEAT_STATE_ALWAYS false "CSV2_2"]) =
      PassOutcome.terminated (initState.diags ++ [Diag.notSupported "SB"]) :=
  spec_C2 [] [Check.presence FEAT_STATE_ALWAYS false "CSV2_2"] "SB" initState rfl

/-- C9: the pass is idempotent: its outcome and final flag value do not
depend on the value the static tainted flag has when the pass starts (the
pass overwrites it with false first), so a second run with the same build
configuration and the same hardware values, starting from whatever the
first run left in the flag, yields the identical result. -/
theorem spec_C9 (g1 g2 : Bool) (cfg : BuildCfg) (hw : Hw) :
    detect_arch_features g1 cfg hw = detect_arch_features g2 cfg hw ∧
    detect_arch_features (detect_arch_features g1 cfg hw).snd cfg hw =
      detect_arch_features g1 cfg hw :=
  ⟨rfl, rfl⟩

/-- C10: the tainted flag is monotone within a pass: it starts false, and
once a state is tainted every later check, and any remaining run of
checks, leaves it true: nothing resets it to false mid-pass. -/
theorem spec_C10 (cs : List Check) (c : Check) (st : PassState)
    (h : st.tainted = true) :
    initState.tainted = false ∧
    taintedAfter (runCheck c st) = true ∧
    taintedAfter (runChecks cs st) = true :=
  ⟨rfl, runCheck_tainted_mono c st h, runChecks_tainted_mono cs st h⟩

/-- Witness for C10 at a concrete tainted state and concrete checks. -/
theorem spec_C10_witness :
    initState.tainted = false ∧
    taintedAfter (runCheck (Check.presence FEAT_STATE_DISABLED false "SB")
      { tainted := true, diags := [] }) = true ∧
    taintedAfter (runChecks [Check.range FEAT_STATE_CHECK 0 "TRBE" 1 1]
      { tainted := true, diags := [] }) = true :=
  spec_C10 [Check.range FEAT_STATE_CHECK 0 "TRBE" 1 1]
    (Check.presence FEAT_STATE_DISABLED false "SB")
    { tainted := true, diags := [] } rfl

/-- C6 counterexample: with ECV Always but absent on the hardware, and
TRBE Always with a field value above its max, the pass panics immediately
at the ECV check: the run errors out mid-pass with only ECV's diagnostic,
the tainted flag still false, and TRBE's range check never reached —
ECV's validation failure is not recorded in the tainted flag and the
abort is not deferred to end-of-pass. -/
theorem spec_C6_counterexample :
    runChecks (registry cfgC6 hwC6) initState =
      Except.error { tainted := false, diags := [Diag.notSupported "ECV"] } ∧
    (detect_arch_features false cfgC6 hwC6).fst =
      PassOutcome.terminated [Diag.notSupported "ECV"] ∧
    (detect_arch_features false cfgC6 hwC6).snd = false :=
  ⟨rfl, rfl, rfl⟩

/-- C6 amended: deferred, tainted-recorded failure handling applies to the
features validated by the versioned range check (AMUv1, TRF, FGT, HCX,
BRBE, TRBE): a range check always continues normally, recording a
below-minimum failure only in the tainted flag; ECV and TWED, by contrast,
are validated by the boolean presence check and, with state Always and an
absent feature, panic immediately at the point of the check. -/
theorem spec_C6_amended (hw : Hw) (st : PassState) (f : Nat) (n : String)
    (mn mx : Nat) (hlt : f < mn) (hr : mn ≤ mx)
    (hecv : ecv_present hw = false) (htw : hw.is_armv8_6_twed_present = false) :
    runCheck (Check.range FEAT_STATE_ALWAYS f n mn mx) st =
      Except.ok { tainted := true, diags := st.diags ++ [Diag.notSupported n] } ∧
    runCheck (Check.presence FEAT_STATE_ALWAYS (ecv_present hw) "ECV") st =
      Except.error { st with diags := st.diags ++ [Diag.notSupported "ECV"] } ∧
    runCheck (Check.presence FEAT_STATE_ALWAYS hw.is_armv8_6_twed_present "TWED") st =
      Except.error { st with diags := st.diags ++ [Diag.notSupported "TWED"] } := by
  refine ⟨?_, ?_, ?_⟩
  · simp only [runCheck, check_feature_below_min f n mn mx st hlt hr]
  · rw [hecv]
    simp [runCheck, feat_detect_panic, feature_panic]
  · rw [htw]
    simp [runCheck, feat_detect_panic, feature_panic]

/-- Witness for the amended C6 at concrete inputs. -/
theorem spec_C6_amended_witness :
    runCheck (Check.range FEAT_STATE_ALWAYS 0 "AMUv1" 1 2) initState =
      Except.ok { tainted := true, diags := initState.diags ++ [Diag.notSupported "AMUv1"] } ∧
    runCheck (Check.presence FEAT_STATE_ALWAYS (ecv_present hwC6) "ECV") initState =
      Except.error { initState with diags := initState.diags ++ [Diag.notSupported "ECV"] } ∧
    runCheck (Check.presence FEAT_STATE_ALWAYS hwC6.is_armv8_6_twed_present "TWED") initState =
      Except.error { initState with diags := initState.diags ++ [Diag.notSupported "TWED"] } :=
  spec_C6_amended hwC6 initState 0 "AMUv1" 1 2 (by decide) (by decide) rfl rfl

/-- C8: two versioned features with state Always, one probing min - 1 and
one probing max + 1, every other registry entry Disabled: all checks run
to completion (no mid-pass panic), exactly the two diagnostics are
emitted — one "not supported" and one "unknown version" — and the pass
then terminates at end-of-pass, in both registry orders of the pair. -/
theorem spec_C8 (pre mid post : List Check) (n1 n2 : String)
    (v1 mn1 mx1 v2 mn2 mx2 : Nat)
    (hpre : ∀ c ∈ pre, stateOf c = FEAT_STATE_DISABLED)
    (hmid : ∀ c ∈ mid, stateOf c = FEAT_STATE_DISABLED)
    (hpost : ∀ c ∈ post, stateOf c = FEAT_STATE_DISABLED)
    (hv1 : v1 + 1 = mn1) (hr1 : mn1 ≤ mx1)
    (hv2 : v2 = mx2 + 1) (hr2 : mn2 ≤ mx2) :
    (runChecks (pre ++ Check.range FEAT_STATE_ALWAYS v1 n1 mn1 mx1 ::
        (mid ++ Check.range FEAT_STATE_ALWAYS v2 n2 mn2 mx2 :: post)) initState =
      Except.ok { tainted := true,
                  diags := [Diag.notSupported n1, Diag.unknownVersion n2 v2 mx2] } ∧
     passOutcome (pre ++ Check.range FEAT_STATE_ALWAYS v1 n1 mn1 mx1 ::
        (mid ++ Check.range FEAT_STATE_ALWAYS v2 n2 mn2 mx2 :: post)) =
      PassOutcome.terminated [Diag.notSupported n1, Diag.unknownVersion n2 v2 mx2]) ∧
    (runChecks (pre ++ Check.range FEAT_STATE_ALWAYS v2 n2 mn2 mx2 ::
        (mid ++ Check.range FEAT_STATE_ALWAYS v1 n1 mn1 mx1 :: post)) initState =
      Except.ok { tainted := true,
                  diags := [Diag.unknownVersion n2 v2 mx2, Diag.notSupported n1] } ∧
     passOutcome (pre ++ Check.range FEAT_STATE_ALWAYS v2 n2 mn2 mx2 ::
        (mid ++ Check.range FEAT_STATE_ALWAYS v1 n1 mn1 mx1 :: post)) =
      PassOutcome.terminated [Diag.unknownVersion n2 v2 mx2, Diag.notSupported n1]) := by
  have hlt1 : v1 < mn1 := by omega
  have hgt2 : mx2 < v2 := by omega
  have hnl2 : ¬ (FEAT_STATE_ALWAYS = FEAT_STATE_ALWAYS ∧ v2 < mn2) := by
    rintro ⟨-, hc⟩
    omega
  have hA : ∀ st : PassState, runCheck (Check.range FEAT_STATE_ALWAYS v1 n1 mn1 mx1) st =
      Except.ok { tainted := true, diags := st.diags ++ [Diag.notSupported n1] } :=
    fun st => by simp only [runCheck, check_feature_below_min v1 n1 mn1 mx1 st hlt1 hr1]
  have hB : ∀ st : PassState, runCheck (Check.range FEAT_STATE_ALWAYS v2 n2 mn2 mx2) st =
      Except.ok { tainted := true, diags := st.diags ++ [Diag.unknownVersion n2 v2 mx2] } :=
    fun st => by
      simp only [runCheck,
        check_feature_above_max FEAT_STATE_ALWAYS v2 n2 mn2 mx2 st (Nat.le_refl _) hnl2 hgt2]
  have run1 : runChecks (pre ++ Check.range FEAT_STATE_ALWAYS v1 n1 mn1 mx1 ::
      (mid ++ Check.range FEAT_STATE_ALWAYS v2 n2 mn2 mx2 :: post)) initState =
      Except.ok { tainted := true,
                  diags := [Diag.notSupported n1, Diag.unknownVersion n2 v2 mx2] } := by
    rw [runChecks_append, runChecks_all_disabled pre hpre]
    show runChecks (Check.range FEAT_STATE_ALWAYS v1 n1 mn1 mx1 ::
      (mid ++ Check.range FEAT_STATE_ALWAYS v2 n2 mn2 mx2 :: post)) initState = _
    simp only [runChecks, hA initState]
    show runChecks (mid ++ Check.range FEAT_STATE_ALWAYS v2 n2 mn2 mx2 :: post)
      { tainted := true, diags := [Diag.notSupported n1] } = _
    rw [runChecks_append, runChecks_all_disabled mid hmid]
    show runChecks (Check.range FEAT_STATE_ALWAYS v2 n2 mn2 mx2 :: post)
      { tainted := true, diags := [Diag.notSupported n1] } = _
    simp only [runChecks, hB { tainted := true, diags := [Diag.notSupported n1] }]
    exact runChecks_all_disabled post hpost _
  have run2 : runChecks (pre ++ Check.range FEAT_STATE_ALWAYS v2 n2 mn2 mx2 ::
      (mid ++ Check.range FEAT_STATE_ALWAYS v1 n1 mn1 mx1 :: post)) initState =
      Except.ok { tainted := true,
                  diags := [Diag.unknownVersion n2 v2 mx2, Diag.notSupported n1] } := by
    rw [runChecks_append, runChecks_all_disabled pre hpre]
    show runChecks (Check.range FEAT_STATE_ALWAYS v2 n2 mn2 mx2 ::
      (mid ++ Check.range FEAT_STATE_ALWAYS v1 n1 mn1 mx1 :: post)) initState = _
    simp only [runChecks, hB initState]
    show runChecks (mid ++ Check.range FEAT_STATE_ALWAYS v1 n1 mn1 mx1 :: post)
      { tainted := true, diags := [Diag.unknownVersion n2 v2 mx2] } = _
    rw [runChecks_append, runChecks_all_disabled mid hmid]
    show runChecks (Check.range FEAT_STATE_ALWAYS v1 n1 mn1 mx1 :: post)
      { tainted := true, diags := [Diag.unknownVersion n2 v2 mx2] } = _
    simp only [runChecks, hA { tainted := true, diags := [Diag.unknownVersion n2 v2 mx2] }]
    exact runChecks_all_disabled post hpost _
  refine ⟨⟨run1, ?_⟩, ⟨run2, ?_⟩⟩
  · simp only [passOutcome, run1]
    rfl
  · simp only [passOutcome, run2]
    rfl

/-- Witness for C8 at concrete inputs: AMUv1 Always with field 0 = min - 1
and TRBE Always with field 2 = max + 1, in both orders, with a Disabled
check around them. -/
theorem spec_C8_witness :
    (runChecks ([Check.presence FEAT_STATE_DISABLED false "SB"] ++
        Check.range FEAT_STATE_ALWAYS 0 "AMUv1" 1 2 ::
        ([] ++ Check.range FEAT_STATE_ALWAYS 2 "TRBE" 1 1 :: [])) initState =
      Except.ok { tainted := true,
                  diags := [Diag.notSupported "AMUv1", Diag.unknownVersion "TRBE" 2 1] } ∧
     passOutcome ([Check.presence FEAT_STATE_DISABLED false "SB"] ++
        Check.range FEAT_STATE_ALWAYS 0 "AMUv1" 1 2 ::
        ([] ++ Check.range FEAT_STATE_ALWAYS 2 "TRBE" 1 1 :: [])) =
      PassOutcome.terminated [Diag.notSupported "AMUv1", Diag.unknownVersion "TRBE" 2 1]) ∧
    (runChecks ([Check.presence FEAT_STATE_DISABLED false "SB"] ++
        Check.range FEAT_STATE_ALWAYS 2 "TRBE" 1 1 ::
        ([] ++ Check.range FEAT_STATE_ALWAYS 0 "AMUv1" 1 2 :: [])) initState =
      Except.ok { tainted := true,
                  diags := [Diag.unknownVersion "TRBE" 2 1, Diag.notSupported "AMUv1"] } ∧
     passOutcome ([Check.presence FEAT_STATE_DISABLED false "SB"] ++
        Check.range FEAT_STATE_ALWAYS 2 "TRBE" 1 1 ::
        ([] ++ Check.range FEAT_STATE_ALWAYS 0 "AMUv1" 1 2 :: [])) =
      PassOutcome.terminated [Diag.unknownVersion "TRBE" 2 1, Diag.notSupported "AMUv1"]) :=
  spec_C8 [Check.presence FEAT_STATE_DISABLED false "SB"] [] [] "AMUv1" "TRBE"
    0 1 2 2 1 1 (by decide) (by decide) (by decide) rfl (by decide) rfl (by decide)
